import Mathlib

/-!
Shallow embedding of the client-side speech-recognition session controller
(`SpeechRecognizer`, source file part_000) and of the PCM audio stream format
(`AudioStreamFormat.ts`), together with theorems settling the frozen claims
about the event-translation pipeline, the session lifecycle, the property
accessors and the audio format arithmetic.

Modelling conventions:
- The source is TypeScript.  User-supplied callbacks (the `recognizing` /
  `recognized` / `canceled` subscribers, the one-shot `cb` / `err` pair and the
  start/stop notification callbacks) are opaque side-effecting functions; we
  model an installed callback as `Option Bool`, where `none` means "not set"
  and `some t` means "set, and raises an exception when invoked iff t".
  Invoking a callback is recorded as a `DispatchAction` in an output list, so a run
  of the dispatcher is summarised by the ordered list of callback invocations
  it performs plus a flag saying whether an uncaught exception propagated out.
- `try { f() } catch { }` and `try { cb(x) } catch (e) { if (err) err(e) }`
  blocks are translated by the helpers `invokeDiscard` and
  `invokeWithErrorSink` below, which mirror exactly which exceptions are
  swallowed, which are forwarded, and which propagate.
- The session handle (`private reco: ServiceRecognizerBase`) is opaque; we
  model it as `Option Nat`, with fresh handles numbered by a counter standing
  in for the external `implRecognizerSetup` factory.
-/

/-- Outcome classification of a recognition result (sdk `ResultReason`;
only the members used by this source slice are modelled). -/
inductive ResultReason
  | NoMatch
  | Canceled
  | RecognizedSpeech
  deriving DecidableEq

/-- Cancellation classification (sdk `CancellationReason`). -/
inductive CancellationReason
  | Error
  | EndOfStream
  deriving DecidableEq

/-- Modelled from the spec: the service status codes carried by phrase events
(`RecognitionStatus2`, declared in the external common.speech layer; spec 4.1
lists success, no-speech / initial-silence / end-of-stream and error codes). -/
inductive RecognitionStatus2
  | Success
  | NoMatch
  | InitialSilenceTimeout
  | BabbleTimeout
  | EndOfDictation
  | Error
  deriving DecidableEq

/-- Modelled from the spec: the completion statuses carried by
`RecognitionEndedEvent` (external `RecognitionCompletionStatus`); only the
success/non-success distinction and the status name are used by the source. -/
inductive RecognitionCompletionStatus
  | Success
  | AudioSourceError
  | UnknownError
  deriving DecidableEq

/-- The enum-member name string, as produced by the TypeScript reverse enum
lookup `RecognitionCompletionStatus[status]`. -/
def RecognitionCompletionStatus.name : RecognitionCompletionStatus → String
  | RecognitionCompletionStatus.Success => "Success"
  | RecognitionCompletionStatus.AudioSourceError => "AudioSourceError"
  | RecognitionCompletionStatus.UnknownError => "UnknownError"

/-- The enum-member name string of a `RecognitionStatus2` value. -/
def RecognitionStatus2.name : RecognitionStatus2 → String
  | RecognitionStatus2.Success => "Success"
  | RecognitionStatus2.NoMatch => "NoMatch"
  | RecognitionStatus2.InitialSilenceTimeout => "InitialSilenceTimeout"
  | RecognitionStatus2.BabbleTimeout => "BabbleTimeout"
  | RecognitionStatus2.EndOfDictation => "EndOfDictation"
  | RecognitionStatus2.Error => "Error"

/-- Modelled from the spec: raw payload of a `SpeechSimplePhraseEvent`
(external `ISimpleSpeechPhrase`); the spec (9, open question) notes it carries
an actual offset field distinct from its duration field. -/
structure ISimpleSpeechPhrase where
  RecognitionStatus : RecognitionStatus2
  DisplayText : String
  Offset : Nat
  Duration : Nat
  deriving DecidableEq

/-- Modelled from the spec: one ranked alternative of a detailed phrase
(external `IPhrase`); only the `Display` member is read by the source. -/
structure IPhrase where
  Display : String
  deriving DecidableEq

/-- Modelled from the spec: raw payload of a `SpeechDetailedPhraseEvent`
(external `IDetailedSpeechPhrase`) with its own offset/duration fields and the
ranked `NBest` list. -/
structure IDetailedSpeechPhrase where
  RecognitionStatus : RecognitionStatus2
  NBest : List IPhrase
  Offset : Nat
  Duration : Nat
  deriving DecidableEq

/-- Modelled from the spec: raw payload of a `SpeechHypothesisEvent`
(external `ISpeechHypothesis`). -/
structure ISpeechHypothesis where
  Text : String
  Offset : Nat
  Duration : Nat
  deriving DecidableEq

/-- The raw protocol events dispatched on `event.Name` by
`implDispatchMessageHandler` (source lines 303-486), as a tagged union. -/
inductive SpeechRecognitionEvent
  | RecognitionEndedEvent (SessionId : String) (Status : RecognitionCompletionStatus)
      (Error : String)
  | SpeechSimplePhraseEvent (SessionId : String) (Result : ISimpleSpeechPhrase)
  | SpeechDetailedPhraseEvent (SessionId : String) (Result : IDetailedSpeechPhrase)
  | SpeechHypothesisEvent (SessionId : String) (Result : ISpeechHypothesis)
  deriving DecidableEq

/-- Modelled from the spec: the result value type (sdk
`SpeechRecognitionResult`, external to the source slice).  A freshly
constructed result has every field absent; fields are only present once
assigned (spec 4.2: a hypothesis result carries no reason classification). -/
structure SpeechRecognitionResult where
  reason : Option ResultReason := none
  text : Option String := none
  duration : Option Nat := none
  offset : Option Nat := none
  json : Option String := none
  errorDetails : Option String := none
  deriving DecidableEq

/-- Modelled from the spec: event args handed to the `recognizing` and
`recognized` subscribers (sdk `SpeechRecognitionEventArgs`). -/
structure SpeechRecognitionEventArgs where
  sessionId : Option String := none
  result : Option SpeechRecognitionResult := none
  deriving DecidableEq

/-- Modelled from the spec: event args handed to the `canceled` subscriber
(sdk `SpeechRecognitionCanceledEventArgs`). -/
structure SpeechRecognitionCanceledEventArgs where
  sessionId : Option String := none
  reason : Option CancellationReason := none
  errorDetails : Option String := none
  deriving DecidableEq

/-- Modelled from the spec: `JSON.stringify` of a simple-phrase payload is an
opaque serialization of the raw payload; modelled as a concrete injective
encoding of its fields. -/
def stringifySimplePhrase (p : ISimpleSpeechPhrase) : String :=
  "RecognitionStatus=" ++ RecognitionStatus2.name p.RecognitionStatus ++
    ",DisplayText=" ++ p.DisplayText ++
    ",Offset=" ++ toString p.Offset ++ ",Duration=" ++ toString p.Duration

/-- Serialization of an NBest list, one alternative per segment. -/
def stringifyNBest : List IPhrase → String
  | [] => ""
  | x :: rest => "Display=" ++ x.Display ++ ";" ++ stringifyNBest rest

/-- Modelled from the spec: `JSON.stringify` of a detailed-phrase payload. -/
def stringifyDetailedPhrase (p : IDetailedSpeechPhrase) : String :=
  "RecognitionStatus=" ++ RecognitionStatus2.name p.RecognitionStatus ++
    ",NBest=" ++ stringifyNBest p.NBest ++
    ",Offset=" ++ toString p.Offset ++ ",Duration=" ++ toString p.Duration

/-- Modelled from the spec: `JSON.stringify` of a hypothesis payload. -/
def stringifyHypothesis (p : ISpeechHypothesis) : String :=
  "Text=" ++ p.Text ++ ",Offset=" ++ toString p.Offset ++
    ",Duration=" ++ toString p.Duration

/-- Modelled from the spec (4.1): the status translator
`EnumTranslation.implTranslateRecognitionResult` (external common.speech
layer): success codes map to `RecognizedSpeech`, no-speech / silence /
end-of-stream codes to `NoMatch`, error codes to `Canceled`. -/
def EnumTranslation.implTranslateRecognitionResult :
    RecognitionStatus2 → ResultReason
  | RecognitionStatus2.Success => ResultReason.RecognizedSpeech
  | RecognitionStatus2.NoMatch => ResultReason.NoMatch
  | RecognitionStatus2.InitialSilenceTimeout => ResultReason.NoMatch
  | RecognitionStatus2.BabbleTimeout => ResultReason.NoMatch
  | RecognitionStatus2.EndOfDictation => ResultReason.NoMatch
  | RecognitionStatus2.Error => ResultReason.Canceled

/-- Modelled from the spec (4.1): the second mapping of the status translator
(`EnumTranslation.implTranslateCancelResult`): `Error` for genuine failures, a
distinct terminal reason for graceful end-of-stream. -/
def EnumTranslation.implTranslateCancelResult :
    RecognitionStatus2 → CancellationReason
  | RecognitionStatus2.EndOfDictation => CancellationReason.EndOfStream
  | _ => CancellationReason.Error

/-- One observable callback invocation performed by the controller. -/
inductive DispatchAction
  | canceledCall (args : SpeechRecognitionCanceledEventArgs)
  | recognizedCall (args : SpeechRecognitionEventArgs)
  | recognizingCall (args : SpeechRecognitionEventArgs)
  | cbCall (result : SpeechRecognitionResult)
  | errCall
  | notifyCall
  deriving DecidableEq

/-- Models `if (h) { try { h(...) } catch (error) { } }`: the callback is
invoked when present (recorded as the action) and an exception it raises is
caught and discarded, never propagating. -/
def invokeDiscard (h : Option Bool) (a : DispatchAction) : List DispatchAction :=
  match h with
  | none => []
  | some _ => [a]

/-- Models `if (cb) { try { cb(x) } catch (e) { if (err) { err(e) } } }`:
the callback is invoked when present; an exception it raises is caught and,
when an error callback is supplied, forwarded to it; an exception raised by
the error callback itself is not caught and propagates (second component). -/
def invokeWithErrorSink (cb err : Option Bool) (a : DispatchAction) : List DispatchAction × Bool :=
  match cb with
  | none => ([], false)
  | some cbThrows =>
    if cbThrows then
      match err with
      | none => ([a], false)
      | some errThrows => ([a, DispatchAction.errCall], errThrows)
    else ([a], false)

/-- The subscriber fields of the recognizer (`recognizing` / `recognized` /
`canceled`, source lines 70-82), read at dispatch time. -/
structure Handlers where
  canceled : Option Bool
  recognized : Option Bool
  recognizing : Option Bool

/-- The result built in the `SpeechSimplePhraseEvent` case (source lines
350-355): reason from the status translator, `duration` and `offset` both
assigned from the payload's `Duration`, `text` from `DisplayText`, `json`
from the serialized raw payload. -/
def simplePhraseResult (res : ISimpleSpeechPhrase) : SpeechRecognitionResult :=
  { reason := some (EnumTranslation.implTranslateRecognitionResult res.RecognitionStatus)
    duration := some res.Duration
    offset := some res.Duration
    text := some res.DisplayText
    json := some (stringifySimplePhrase res) }

/-- The result built in the `SpeechDetailedPhraseEvent` case (source lines
411-418): `json`, `offset` and `duration` from the payload's own fields,
reason from the status translator, and `text` assigned from
`NBest[0].Display` only when the reason is `RecognizedSpeech`.  Reading
`NBest[0].Display` on an empty `NBest` is a runtime type error in the source;
that failure is modelled as `Except.error`. -/
def detailedPhraseResult (res : IDetailedSpeechPhrase) :
    Except Unit SpeechRecognitionResult :=
  let reason := EnumTranslation.implTranslateRecognitionResult res.RecognitionStatus
  let base : SpeechRecognitionResult :=
    { json := some (stringifyDetailedPhrase res)
      offset := some res.Offset
      duration := some res.Duration
      reason := some reason }
  if reason = ResultReason.RecognizedSpeech then
    match res.NBest with
    | [] => Except.error ()
    | first :: _ => Except.ok { base with text := some first.Display }
  else
    Except.ok base

/-- The result built in the `SpeechHypothesisEvent` case (source lines
469-473): `json`, `offset`, `duration`, `text` assigned; the `reason` field is
never assigned on this path. -/
def hypothesisResult (res : ISpeechHypothesis) : SpeechRecognitionResult :=
  { json := some (stringifyHypothesis res)
    offset := some res.Offset
    duration := some res.Duration
    text := some res.Text }

/-- `SpeechRecognizer.implDispatchMessageHandler` (source lines 298-487).
Input: one raw event, the subscriber fields read from `this`, and the
`cb` / `err` parameters passed by the registered sink closure.  Output: the
ordered list of callback invocations performed and whether an uncaught
exception propagated out of the handler.

Note on the one-shot clearing: at the end of the `SpeechSimplePhraseEvent`
case the source assigns `cb = undefined; err = undefined;` (lines 399-400).
Those assignments rebind only the local parameters of
`implDispatchMessageHandler`; nothing reads the parameters afterwards within
the call, and JavaScript argument passing means the closure-captured
variables of `recognizeOnceAsync` are unaffected.  The assignments are
therefore observationally a no-op and the embedding has no state to update. -/
def implDispatchMessageHandler (event : SpeechRecognitionEvent) (hs : Handlers)
    (cb err : Option Bool) : List DispatchAction × Bool :=
  match event with
  | SpeechRecognitionEvent.RecognitionEndedEvent sessionId status error =>
    if status = RecognitionCompletionStatus.Success then ([], false)
    else
      let errorText := RecognitionCompletionStatus.name status ++ ": " ++ error
      let errorEvent : SpeechRecognitionCanceledEventArgs :=
        { sessionId := some sessionId
          reason := some CancellationReason.Error
          errorDetails := some errorText }
      let canceledActs := invokeDiscard hs.canceled (DispatchAction.canceledCall errorEvent)
      let result : SpeechRecognitionResult :=
        { reason := some ResultReason.Canceled, errorDetails := some errorText }
      let cbActs := invokeWithErrorSink cb err (DispatchAction.cbCall result)
      (canceledActs ++ cbActs.1, cbActs.2)
  | SpeechRecognitionEvent.SpeechSimplePhraseEvent sessionId res =>
    let reason := EnumTranslation.implTranslateRecognitionResult res.RecognitionStatus
    let result := simplePhraseResult res
    let subActs :=
      if reason = ResultReason.Canceled then
        invokeDiscard hs.canceled (DispatchAction.canceledCall
          { sessionId := some sessionId
            reason := some (EnumTranslation.implTranslateCancelResult res.RecognitionStatus) })
      else
        invokeDiscard hs.recognized (DispatchAction.recognizedCall
          { sessionId := some sessionId, result := some result })
    let cbActs := invokeWithErrorSink cb err (DispatchAction.cbCall result)
    (subActs ++ cbActs.1, cbActs.2)
  | SpeechRecognitionEvent.SpeechDetailedPhraseEvent sessionId res =>
    match detailedPhraseResult res with
    | Except.error _ => ([], true)
    | Except.ok result =>
      let reason := EnumTranslation.implTranslateRecognitionResult res.RecognitionStatus
      let subActs :=
        if reason = ResultReason.Canceled then
          invokeDiscard hs.canceled (DispatchAction.canceledCall
            { sessionId := some sessionId
              reason := some (EnumTranslation.implTranslateCancelResult res.RecognitionStatus) })
        else
          invokeDiscard hs.recognized (DispatchAction.recognizedCall
            { sessionId := some sessionId, result := some result })
      let cbActs := invokeDiscard cb (DispatchAction.cbCall result)
      (subActs ++ cbActs, false)
  | SpeechRecognitionEvent.SpeechHypothesisEvent sessionId res =>
    let ev : SpeechRecognitionEventArgs :=
      { sessionId := some sessionId, result := some (hypothesisResult res) }
    (invokeDiscard hs.recognizing (DispatchAction.recognizingCall ev), false)

/-- Failure classifications raised by the precondition checks of the public
surface (spec section 7: precondition violations are synchronous). -/
inductive SpeechError
  | objectDisposed
  | argumentNull
  deriving DecidableEq

/-- Modelled from the spec: `Contracts.throwIfDisposed` (external `Contracts`
helper): fails with the disposed classification when the flag is set. -/
def Contracts.throwIfDisposed (disposed : Bool) : Except SpeechError Unit :=
  if disposed then Except.error SpeechError.objectDisposed else Except.ok ()

/-- A required string argument is rejected when it is null (absent) or blank
(empty or only whitespace). -/
def isNullOrWhitespace : Option String → Bool
  | none => true
  | some s => s.data.all Char.isWhitespace

/-- Modelled from the spec: `Contracts.throwIfNullOrWhitespace` (external
`Contracts` helper): fails on a null or blank required argument. -/
def Contracts.throwIfNullOrWhitespace (value : Option String) :
    Except SpeechError Unit :=
  if isNullOrWhitespace value then Except.error SpeechError.argumentNull
  else Except.ok ()

/-- Modelled from the spec: the backing configuration store
(sdk `PropertyCollection`, external to the source slice): a string-keyed map;
`getProperty` returns the stored value or the supplied default. -/
structure PropertyCollection where
  entries : List (String × String) := []
  deriving DecidableEq

/-- Reads a property, falling back to the supplied default (absent default
models the JavaScript call without a default argument). -/
def PropertyCollection.getProperty (p : PropertyCollection) (key : String)
    (dflt : Option String) : Option String :=
  match p.entries.find? (fun kv => kv.1 == key) with
  | some kv => some kv.2
  | none => dflt

/-- Stores a property value under a key, replacing any previous binding. -/
def PropertyCollection.setProperty (p : PropertyCollection) (key value : String) :
    PropertyCollection :=
  { entries := (key, value) :: p.entries.filter (fun kv => kv.1 != key) }

/-- Key string of `PropertyId.SpeechServiceConnection_EndpointId` (the
TypeScript enum member is modelled by its name string). -/
def endpointIdKey : String := "SpeechServiceConnection_EndpointId"

/-- Key string of `PropertyId.SpeechServiceAuthorization_Token`. -/
def authTokenKey : String := "SpeechServiceAuthorization_Token"

/-- Key string of `PropertyId.SpeechServiceConnection_RecoLanguage`. -/
def recoLanguageKey : String := "SpeechServiceConnection_RecoLanguage"

/-- Modelled from the spec: the string property key named by the external
constant `OutputFormatPropertyName` (spec 6: output format is derived from a
stored property key). -/
def OutputFormatPropertyName : String := "OutputFormat"

/-- The default endpoint id returned by the `endpointId` getter when the
property is unset (source line 92). -/
def zeroGuid : String := "00000000-0000-0000-0000-000000000000"

/-- The mutable private state of a `SpeechRecognizer` instance:
`disposedSpeechRecognizer` (line 46), the opaque session handle `reco`
(line 288, `none` models `undefined`), a counter standing in for the external
`implRecognizerSetup` factory producing fresh handles, and the private
property collection (line 47). -/
structure SpeechRecognizerState where
  disposedSpeechRecognizer : Bool := false
  reco : Option Nat := none
  nextHandle : Nat := 0
  privProperties : PropertyCollection := {}
  deriving DecidableEq

/-- The sink closure registered with `implRecognizerStart`: it remembers which
session handle it was registered for and the `cb` / `err` values it captured
from the enclosing call (for `recognizeOnceAsync` the caller's callbacks, for
`startContinuousRecognitionAsync` both `undefined`). -/
structure SinkReg where
  handle : Nat
  cb : Option Bool
  err : Option Bool
  deriving DecidableEq

/-- `endpointId` getter (source lines 89-93). -/
def SpeechRecognizer.endpointId (st : SpeechRecognizerState) :
    Except SpeechError (Option String) :=
  match Contracts.throwIfDisposed st.disposedSpeechRecognizer with
  | Except.error e => Except.error e
  | Except.ok _ =>
    Except.ok (st.privProperties.getProperty endpointIdKey (some zeroGuid))

/-- `endpointId` setter (source lines 100-104): disposed check, then
null/blank check, then store. -/
def SpeechRecognizer.setEndpointId (st : SpeechRecognizerState)
    (value : Option String) : Except SpeechError SpeechRecognizerState :=
  match Contracts.throwIfDisposed st.disposedSpeechRecognizer with
  | Except.error e => Except.error e
  | Except.ok _ =>
    match Contracts.throwIfNullOrWhitespace value with
    | Except.error e => Except.error e
    | Except.ok _ =>
      Except.ok { st with privProperties :=
        st.privProperties.setProperty endpointIdKey (value.getD "") }

/-- `authorizationToken` setter (source lines 110-113): null/blank check only;
the source performs no disposed check here. -/
def SpeechRecognizer.setAuthorizationToken (st : SpeechRecognizerState)
    (token : Option String) : Except SpeechError SpeechRecognizerState :=
  match Contracts.throwIfNullOrWhitespace token with
  | Except.error e => Except.error e
  | Except.ok _ =>
    Except.ok { st with privProperties :=
      st.privProperties.setProperty authTokenKey (token.getD "") }

/-- `authorizationToken` getter (source lines 119-121): plain read; the source
performs no disposed check here. -/
def SpeechRecognizer.authorizationToken (st : SpeechRecognizerState) :
    Except SpeechError (Option String) :=
  Except.ok (st.privProperties.getProperty authTokenKey none)

/-- `speechRecognitionLanguage` getter (source lines 128-132). -/
def SpeechRecognizer.speechRecognitionLanguage (st : SpeechRecognizerState) :
    Except SpeechError (Option String) :=
  match Contracts.throwIfDisposed st.disposedSpeechRecognizer with
  | Except.error e => Except.error e
  | Except.ok _ =>
    Except.ok (st.privProperties.getProperty recoLanguageKey none)

/-- The public output formats (sdk `OutputFormat`). -/
inductive OutputFormat
  | Simple
  | Detailed
  deriving DecidableEq

/-- `outputFormat` getter (source lines 139-147): disposed check, then a
comparison of the stored property (default the name of `Simple`) against the
name of `Simple`. -/
def SpeechRecognizer.outputFormat (st : SpeechRecognizerState) :
    Except SpeechError OutputFormat :=
  match Contracts.throwIfDisposed st.disposedSpeechRecognizer with
  | Except.error e => Except.error e
  | Except.ok _ =>
    if st.privProperties.getProperty OutputFormatPropertyName (some "Simple")
        = some "Simple" then
      Except.ok OutputFormat.Simple
    else
      Except.ok OutputFormat.Detailed

/-- `implCloseExistingRecognizer` (source lines 290-296): when a session
handle is held, silence its audio source, dispose it (both external side
effects on the handle) and clear the handle field. -/
def implCloseExistingRecognizer (st : SpeechRecognizerState) :
    SpeechRecognizerState :=
  match st.reco with
  | some _ => { st with reco := none }
  | none => st

/-- `recognizeOnceAsync` (source lines 166-184): disposed check, tear down any
existing session, create a fresh session handle and register a sink closure
that captures the caller's `cb` / `err` pair.  The returned `SinkReg` records
what the closure captured. -/
def SpeechRecognizer.recognizeOnceAsync (st : SpeechRecognizerState)
    (cb err : Option Bool) :
    Except SpeechError (SpeechRecognizerState × SinkReg) :=
  match Contracts.throwIfDisposed st.disposedSpeechRecognizer with
  | Except.error e => Except.error e
  | Except.ok _ =>
    let st1 := implCloseExistingRecognizer st
    let h := st1.nextHandle
    Except.ok ({ st1 with reco := some h, nextHandle := h + 1 },
      { handle := h, cb := cb, err := err })

/-- `startContinuousRecognitionAsync` (source lines 193-223): disposed check,
tear down any existing session, create a fresh session handle, register a sink
that captures no one-shot callbacks (line 209 passes undefined), then invoke
the start-notification callback, forwarding its exception to `err`. -/
def SpeechRecognizer.startContinuousRecognitionAsync (st : SpeechRecognizerState)
    (cb err : Option Bool) :
    Except SpeechError (SpeechRecognizerState × SinkReg × List DispatchAction × Bool) :=
  match Contracts.throwIfDisposed st.disposedSpeechRecognizer with
  | Except.error e => Except.error e
  | Except.ok _ =>
    let st1 := implCloseExistingRecognizer st
    let h := st1.nextHandle
    let started := invokeWithErrorSink cb err DispatchAction.notifyCall
    Except.ok ({ st1 with reco := some h, nextHandle := h + 1 },
      { handle := h, cb := none, err := none }, started.1, started.2)

/-- `stopContinuousRecognitionAsync` (source lines 231-245): disposed check,
tear down the current session, then invoke the stop-notification callback,
forwarding its exception to `err`. -/
def SpeechRecognizer.stopContinuousRecognitionAsync (st : SpeechRecognizerState)
    (cb err : Option Bool) :
    Except SpeechError (SpeechRecognizerState × List DispatchAction × Bool) :=
  match Contracts.throwIfDisposed st.disposedSpeechRecognizer with
  | Except.error e => Except.error e
  | Except.ok _ =>
    let st1 := implCloseExistingRecognizer st
    let stopped := invokeWithErrorSink cb err DispatchAction.notifyCall
    Except.ok (st1, stopped.1, stopped.2)

/-- `dispose` (source lines 262-273): idempotent; when disposing, tear down
any active session and set the disposed flag. -/
def SpeechRecognizer.dispose (st : SpeechRecognizerState) (disposing : Bool) :
    SpeechRecognizerState :=
  if st.disposedSpeechRecognizer then st
  else if disposing then
    { implCloseExistingRecognizer st with disposedSpeechRecognizer := true }
  else st

/-- `close` (source lines 251-255): disposed check, then dispose. -/
def SpeechRecognizer.close (st : SpeechRecognizerState) :
    Except SpeechError SpeechRecognizerState :=
  match Contracts.throwIfDisposed st.disposedSpeechRecognizer with
  | Except.error e => Except.error e
  | Except.ok _ => Except.ok (SpeechRecognizer.dispose st true)

/-- The body of the sink closure registered by `recognizeOnceAsync` (source
lines 177-183) and `startContinuousRecognitionAsync` (lines 204-210): read the
current disposed flag and session-handle field of `this`; return immediately
when the instance is disposed or no handle is held, otherwise dispatch.  Note
the guard tests only whether some handle is currently held, not whether the
held handle is the one this sink was registered for. -/
def sinkHandler (st : SpeechRecognizerState) (hs : Handlers)
    (cb err : Option Bool) (event : SpeechRecognitionEvent) :
    List DispatchAction × Bool :=
  if st.disposedSpeechRecognizer || st.reco.isNone then ([], false)
  else implDispatchMessageHandler event hs cb err

/-- Serialized delivery of a sequence of raw events to the registered sink,
with the controller state, subscriber set and the closure-captured `cb` /
`err` pair unchanged between events (the source never rebinds the captured
variables; see the note on `implDispatchMessageHandler`).  Delivery stops if
an uncaught exception propagates into the engine. -/
def processEvents (st : SpeechRecognizerState) (hs : Handlers)
    (cb err : Option Bool) : List SpeechRecognitionEvent → List DispatchAction × Bool
  | [] => ([], false)
  | e :: rest =>
    let r := sinkHandler st hs cb err e
    if r.2 then (r.1, true)
    else
      let r2 := processEvents st hs cb err rest
      (r.1 ++ r2.1, r2.2)

/-- Is this action an invocation of the one-shot completion pair? -/
def isCompletionCall : DispatchAction → Bool
  | DispatchAction.cbCall _ => true
  | DispatchAction.errCall => true
  | _ => false

/-- Number of invocations of the one-shot `cb` / `err` pair in a run. -/
def completionCount (acts : List DispatchAction) : Nat :=
  (acts.filter isCompletionCall).length

/-- The wave format produced by the `AudioStreamFormatImpl` constructor
(AudioStreamFormat.ts lines 48-56). -/
structure AudioStreamFormatImpl where
  formatTag : Nat
  bitsPerSample : Nat
  samplesPerSec : Nat
  channels : Nat
  avgBytesPerSec : Nat
  blockAlign : Nat
  deriving DecidableEq

/-- The `AudioStreamFormatImpl` constructor body (AudioStreamFormat.ts lines
48-56); the TypeScript default arguments are 16000, 16 and 1 and are supplied
explicitly by `AudioStreamFormat.getDefaultInputFormat` below. -/
def AudioStreamFormatImpl.create (samplesPerSec bitsPerSample channels : Nat) :
    AudioStreamFormatImpl :=
  { formatTag := 1
    bitsPerSample := bitsPerSample
    samplesPerSec := samplesPerSec
    channels := channels
    avgBytesPerSec := samplesPerSec * channels * bitsPerSample
    blockAlign := channels * max bitsPerSample 8 }

/-- `AudioStreamFormat.getWaveFormatPCM` (AudioStreamFormat.ts lines 28-30). -/
def AudioStreamFormat.getWaveFormatPCM
    (samplesPerSecond bitsPerSample channels : Nat) : AudioStreamFormatImpl :=
  AudioStreamFormatImpl.create samplesPerSecond bitsPerSample channels

/-- `AudioStreamFormat.getDefaultInputFormat` (AudioStreamFormat.ts lines
16-18 and 63-65): the constructor with its default arguments. -/
def AudioStreamFormat.getDefaultInputFormat : AudioStreamFormatImpl :=
  AudioStreamFormatImpl.create 16000 16 1

/-! ### Concrete sample inputs used by the closed theorems below -/

/-- A property collection holding only the required recognition language. -/
def sampleProperties : PropertyCollection :=
  { entries := [(recoLanguageKey, "en-US")] }

/-- A freshly constructed recognizer: not disposed, no session handle. -/
def sampleRecognizer : SpeechRecognizerState :=
  { privProperties := sampleProperties }

/-- The recognizer after one session has been created (handle 0 live). -/
def sampleActive : SpeechRecognizerState :=
  { privProperties := sampleProperties, reco := some 0, nextHandle := 1 }

/-- The recognizer after a second session has been created (handle 1 live,
handle 0 superseded). -/
def sampleActive2 : SpeechRecognizerState :=
  { privProperties := sampleProperties, reco := some 1, nextHandle := 2 }

/-- The recognizer after its session has been torn down by a stop call. -/
def sampleIdle1 : SpeechRecognizerState :=
  { privProperties := sampleProperties, reco := none, nextHandle := 1 }

/-- The recognizer after `close()`. -/
def sampleClosed : SpeechRecognizerState :=
  { privProperties := sampleProperties, disposedSpeechRecognizer := true }

/-- A successful simple-phrase payload. -/
def sampleSimpleOk : ISimpleSpeechPhrase :=
  { RecognitionStatus := RecognitionStatus2.Success
    DisplayText := "hello world"
    Offset := 7
    Duration := 5 }

/-- A hypothesis payload. -/
def sampleHypothesis : ISpeechHypothesis :=
  { Text := "hel", Offset := 1, Duration := 2 }

/-- A raw hypothesis event. -/
def hypEvent : SpeechRecognitionEvent :=
  SpeechRecognitionEvent.SpeechHypothesisEvent "sess" sampleHypothesis

/-- A raw session-ended event with non-success status. -/
def endedErr : SpeechRecognitionEvent :=
  SpeechRecognitionEvent.RecognitionEndedEvent "sess"
    RecognitionCompletionStatus.UnknownError "boom"

/-- A successful detailed-phrase payload with one ranked alternative. -/
def sampleDetailed : IDetailedSpeechPhrase :=
  { RecognitionStatus := RecognitionStatus2.Success
    NBest := [{ Display := "hi" }]
    Offset := 3
    Duration := 4 }

/-- The result the dispatcher constructs for `sampleDetailed`. -/
def sampleDetailedResult : SpeechRecognitionResult :=
  { json := some (stringifyDetailedPhrase sampleDetailed)
    offset := some 3
    duration := some 4
    reason := some ResultReason.RecognizedSpeech
    text := some "hi" }

/-! ### Claim theorems -/

/-- C10: for every call to `AudioStreamFormat.getWaveFormatPCM(samplesPerSecond,
bitsPerSample, channels)`, the returned format has `formatTag = 1`,
`avgBytesPerSec = samplesPerSecond * channels * bitsPerSample` and
`blockAlign = channels * max(bitsPerSample, 8)`; `getDefaultInputFormat`
returns the format with `samplesPerSec = 16000`, `bitsPerSample = 16`,
`channels = 1`. -/
theorem audioStreamFormat_pcm_fields (s b c : Nat) :
    (AudioStreamFormat.getWaveFormatPCM s b c).formatTag = 1 ∧
    (AudioStreamFormat.getWaveFormatPCM s b c).avgBytesPerSec = s * c * b ∧
    (AudioStreamFormat.getWaveFormatPCM s b c).blockAlign = c * max b 8 ∧
    AudioStreamFormat.getDefaultInputFormat.samplesPerSec = 16000 ∧
    AudioStreamFormat.getDefaultInputFormat.bitsPerSample = 16 ∧
    AudioStreamFormat.getDefaultInputFormat.channels = 1 ∧
    AudioStreamFormat.getDefaultInputFormat =
      AudioStreamFormat.getWaveFormatPCM 16000 16 1 :=
  ⟨rfl, rfl, rfl, rfl, rfl, rfl, rfl⟩

/-- C8: for every `SpeechSimplePhraseEvent`, the constructed result assigns
`offset` from the payload's `Duration` field (not from its `Offset` field),
assigns `duration` from the same `Duration`, takes `text` from `DisplayText`
and `json` from the serialized raw payload. -/
theorem simplePhrase_result_fields (p : ISimpleSpeechPhrase) :
    (simplePhraseResult p).offset = some p.Duration ∧
    (simplePhraseResult p).duration = some p.Duration ∧
    (simplePhraseResult p).text = some p.DisplayText ∧
    (simplePhraseResult p).json = some (stringifySimplePhrase p) :=
  ⟨rfl, rfl, rfl, rfl⟩

/-- C9: for every raw event delivered to the registered sink, if the
recognizer is disposed or no session handle is currently held, the sink
returns immediately: no result is constructed, no subscriber channel is
invoked and no one-shot callback fires. -/
theorem sink_noop_when_disposed_or_no_session
    (st : SpeechRecognizerState) (hs : Handlers) (cb err : Option Bool)
    (ev : SpeechRecognitionEvent)
    (h : st.disposedSpeechRecognizer = true ∨ st.reco = none) :
    sinkHandler st hs cb err ev = ([], false) := by
  unfold sinkHandler
  rcases h with h | h <;> simp [h]

/-- C9 witness: the sink of a closed recognizer drops a hypothesis event. -/
theorem sink_noop_when_disposed_or_no_session_witness :
    sinkHandler sampleClosed
      { canceled := some false, recognized := some false, recognizing := some false }
      (some false) (some false) hypEvent = ([], false) :=
  sink_noop_when_disposed_or_no_session sampleClosed
    { canceled := some false, recognized := some false, recognizing := some false }
    (some false) (some false) hypEvent (Or.inl rfl)

/-- C1 (code bug): the one-shot completion pair is NOT invoked at most once.
After `recognizeOnceAsync` installs the sink with the captured callback pair
(first conjunct shows the setup), a session that emits a successful simple
phrase followed by a failed session-end invokes the pair twice: the clearing
comment in the source (lines 396-400) only rebinds the local parameters of
`implDispatchMessageHandler`, never the closure-captured callbacks. -/
theorem recognizeOnce_completion_invoked_twice :
    SpeechRecognizer.recognizeOnceAsync sampleRecognizer (some false) none =
      Except.ok (sampleActive, { handle := 0, cb := some false, err := none }) ∧
    completionCount (processEvents sampleActive
      { canceled := none, recognized := none, recognizing := none }
      (some false) none
      [SpeechRecognitionEvent.SpeechSimplePhraseEvent "sess" sampleSimpleOk,
       endedErr]).1 = 2 :=
  ⟨rfl, rfl⟩

/-- C4 (code bug): a non-success `RecognitionEndedEvent` dispatches a canceled
event with reason `Error`, the event's session id and errorDetails
`"<status>: <error>"` to the canceled subscriber, and delivers a result with
reason `Canceled` and the same errorDetails to the pending one-shot callback
(first conjunct); a success-status `RecognitionEndedEvent` invokes nothing
(second conjunct).  But the callback is NOT cleared afterwards: a second
non-success session-end invokes it again (third conjunct). -/
theorem sessionEnded_error_dispatch_not_cleared :
    implDispatchMessageHandler endedErr
      { canceled := some false, recognized := none, recognizing := none }
      (some false) none =
      ([DispatchAction.canceledCall
          { sessionId := some "sess"
            reason := some CancellationReason.Error
            errorDetails := some "UnknownError: boom" },
        DispatchAction.cbCall
          { reason := some ResultReason.Canceled
            errorDetails := some "UnknownError: boom" }], false) ∧
    implDispatchMessageHandler
      (SpeechRecognitionEvent.RecognitionEndedEvent "sess"
        RecognitionCompletionStatus.Success "")
      { canceled := some false, recognized := none, recognizing := none }
      (some false) none = ([], false) ∧
    completionCount (processEvents sampleActive
      { canceled := none, recognized := none, recognizing := none }
      (some false) none [endedErr, endedErr]).1 = 2 :=
  ⟨rfl, rfl, rfl⟩

/-- The predicate asserted by the non-null-reason claim: every payload
dispatched to the canceled, recognized or recognizing channel carries a
reason classification. -/
def channelReasonSet : DispatchAction → Bool
  | DispatchAction.canceledCall a => a.reason.isSome
  | DispatchAction.recognizedCall a =>
      (Option.bind a.result SpeechRecognitionResult.reason).isSome
  | DispatchAction.recognizingCall a =>
      (Option.bind a.result SpeechRecognitionResult.reason).isSome
  | _ => true

/-- The reason discipline the dispatcher actually maintains: canceled and
recognized payloads carry a reason, while the result dispatched to the
recognizing channel never has its reason field assigned. -/
def channelReasonDiscipline : DispatchAction → Bool
  | DispatchAction.canceledCall a => a.reason.isSome
  | DispatchAction.recognizedCall a =>
      (Option.bind a.result SpeechRecognitionResult.reason).isSome
  | DispatchAction.recognizingCall a =>
      (Option.bind a.result SpeechRecognitionResult.reason).isNone
  | _ => true

/-- C3 counterexample: the event args dispatched to the recognizing channel
for a hypothesis event carry a result whose reason field is unset, so not
every channel payload carries a non-null reason. -/
theorem hypothesis_dispatch_reason_missing :
    ((implDispatchMessageHandler hypEvent
        { canceled := none, recognized := none, recognizing := some false }
        none none).1.all channelReasonSet) = false :=
  rfl

/-- Helper: a guarded discard-on-failure invocation site preserves any
predicate that holds of the invoked action. -/
lemma all_invokeDiscard (p : DispatchAction → Bool) (h : Option Bool)
    (a : DispatchAction) (ha : p a = true) :
    ((invokeDiscard h a).all p) = true := by
  cases h <;> simp [invokeDiscard, ha]

/-- Helper: a callback site with an error sink preserves any predicate that
holds of the invoked action and of an error-callback invocation. -/
lemma all_invokeWithErrorSink (p : DispatchAction → Bool) (cb err : Option Bool)
    (a : DispatchAction) (ha : p a = true)
    (he : p DispatchAction.errCall = true) :
    (((invokeWithErrorSink cb err a).1).all p) = true := by
  cases cb with
  | none => rfl
  | some t => cases t <;> cases err <;> simp [invokeWithErrorSink, ha, he]

/-- Helper: every result the detailed-phrase case constructs successfully
carries the translated reason. -/
lemma detailedPhraseResult_reason (res : IDetailedSpeechPhrase)
    (r : SpeechRecognitionResult) (h : detailedPhraseResult res = Except.ok r) :
    r.reason =
      some (EnumTranslation.implTranslateRecognitionResult res.RecognitionStatus) := by
  simp only [detailedPhraseResult] at h
  split at h
  · split at h
    · cases h
    · injection h with h2
      subst h2
      rfl
  · injection h with h2
    subst h2
    rfl

/-- C3 (amended): every payload dispatched to the canceled or recognized
channel carries a set reason classification, while the result dispatched to
the recognizing channel for a hypothesis event has its reason field unset. -/
theorem dispatch_reason_discipline (ev : SpeechRecognitionEvent) (hs : Handlers)
    (cb err : Option Bool) :
    ((implDispatchMessageHandler ev hs cb err).1.all channelReasonDiscipline) = true := by
  cases ev with
  | RecognitionEndedEvent sid status error =>
    by_cases hst : status = RecognitionCompletionStatus.Success
    · simp [implDispatchMessageHandler, hst]
    · simp only [implDispatchMessageHandler, if_neg hst, List.all_append,
        Bool.and_eq_true]
      exact ⟨all_invokeDiscard _ _ _ rfl, all_invokeWithErrorSink _ _ _ _ rfl rfl⟩
  | SpeechSimplePhraseEvent sid res =>
    by_cases hr : EnumTranslation.implTranslateRecognitionResult res.RecognitionStatus
        = ResultReason.Canceled
    · simp only [implDispatchMessageHandler, if_pos hr, List.all_append,
        Bool.and_eq_true]
      exact ⟨all_invokeDiscard _ _ _ rfl, all_invokeWithErrorSink _ _ _ _ rfl rfl⟩
    · simp only [implDispatchMessageHandler, if_neg hr, List.all_append,
        Bool.and_eq_true]
      exact ⟨all_invokeDiscard _ _ _ rfl, all_invokeWithErrorSink _ _ _ _ rfl rfl⟩
  | SpeechDetailedPhraseEvent sid res =>
    cases hres : detailedPhraseResult res with
    | error e => simp [implDispatchMessageHandler, hres]
    | ok result =>
      have hreason := detailedPhraseResult_reason res result hres
      by_cases hc : EnumTranslation.implTranslateRecognitionResult res.RecognitionStatus
          = ResultReason.Canceled
      · simp only [implDispatchMessageHandler, hres, if_pos hc, List.all_append,
          Bool.and_eq_true]
        exact ⟨all_invokeDiscard _ _ _ rfl, all_invokeDiscard _ _ _ rfl⟩
      · simp only [implDispatchMessageHandler, hres, if_neg hc, List.all_append,
          Bool.and_eq_true]
        refine ⟨all_invokeDiscard _ _ _ ?_, all_invokeDiscard _ _ _ rfl⟩
        simp [channelReasonDiscipline, hreason]
  | SpeechHypothesisEvent sid res =>
    exact all_invokeDiscard _ _ _ rfl

/-- C2 counterexample: start a continuous session, then start a second one
while the first is active (first two conjuncts show both setups).  When the
superseded first session's sink is later invoked with a raw event, the guard
passes — it checks only disposal and that some session handle is held, not
which session the sink belongs to — and the stale event is dispatched to the
recognizing subscriber. -/
theorem staleSink_leaks_after_restart :
    SpeechRecognizer.startContinuousRecognitionAsync sampleRecognizer none none =
      Except.ok (sampleActive, { handle := 0, cb := none, err := none }, [], false) ∧
    SpeechRecognizer.startContinuousRecognitionAsync sampleActive none none =
      Except.ok (sampleActive2, { handle := 1, cb := none, err := none }, [], false) ∧
    (sinkHandler sampleActive2
      { canceled := none, recognized := none, recognizing := some false }
      none none hypEvent).1 =
      [DispatchAction.recognizingCall
        { sessionId := some "sess", result := some (hypothesisResult sampleHypothesis) }] :=
  ⟨rfl, rfl, rfl⟩

/-- C2 (amended): after `stopContinuousRecognitionAsync` or `close`, an
invocation of the (now superseded) session's sink dispatches nothing to any
subscriber or pending callback, because the session-handle field is cleared
(stop) or the disposed flag is set (close).  When instead a new session has
been started, the guard does not distinguish the stale sink from the live one
(see the counterexample). -/
theorem staleSink_silent_after_stop_or_close
    (st : SpeechRecognizerState) (hs : Handlers)
    (cb err cb2 err2 : Option Bool) (ev : SpeechRecognitionEvent) :
    (∀ out, SpeechRecognizer.stopContinuousRecognitionAsync st cb err = Except.ok out →
      sinkHandler out.1 hs cb2 err2 ev = ([], false)) ∧
    (∀ st2, SpeechRecognizer.close st = Except.ok st2 →
      sinkHandler st2 hs cb2 err2 ev = ([], false)) := by
  constructor
  · intro out hout
    unfold SpeechRecognizer.stopContinuousRecognitionAsync Contracts.throwIfDisposed at hout
    by_cases hd : st.disposedSpeechRecognizer <;> simp [hd] at hout
    have hr : out.1.reco = none := by
      rw [← hout]
      unfold implCloseExistingRecognizer
      cases h2 : st.reco <;> simp [h2]
    unfold sinkHandler
    simp [hr]
  · intro st2 hst2
    unfold SpeechRecognizer.close Contracts.throwIfDisposed at hst2
    by_cases hd : st.disposedSpeechRecognizer <;> simp [hd] at hst2
    have hdisp : st2.disposedSpeechRecognizer = true := by
      rw [← hst2]
      unfold SpeechRecognizer.dispose
      simp [hd]
    unfold sinkHandler
    simp [hdisp]

/-- C2 witness: after stopping the active session, a later invocation of the
stale sink with a hypothesis event dispatches nothing, even with every
subscriber installed. -/
theorem staleSink_silent_after_stop_or_close_witness :
    sinkHandler sampleIdle1
      { canceled := some false, recognized := some false, recognizing := some false }
      (some false) (some false) hypEvent = ([], false) :=
  (staleSink_silent_after_stop_or_close sampleActive
    { canceled := some false, recognized := some false, recognizing := some false }
    none none (some false) (some false) hypEvent).1
    (sampleIdle1, [], false) rfl

/-- Helper: a discard-on-failure invocation site is insensitive to whether the
installed handler throws; only presence matters. -/
lemma invokeDiscard_ext (h h2 : Option Bool) (a : DispatchAction)
    (hh : h.isSome = h2.isSome) : invokeDiscard h a = invokeDiscard h2 a := by
  cases h <;> cases h2 <;> simp_all [invokeDiscard]

/-- Helper: the dispatcher output depends on the subscriber fields only
through their presence, never through whether their handlers throw. -/
lemma implDispatch_handlers_ext (ev : SpeechRecognitionEvent)
    (c c2 r r2 g g2 cb err : Option Bool)
    (hc : c.isSome = c2.isSome) (hr : r.isSome = r2.isSome)
    (hg : g.isSome = g2.isSome) :
    implDispatchMessageHandler ev { canceled := c, recognized := r, recognizing := g } cb err =
      implDispatchMessageHandler ev { canceled := c2, recognized := r2, recognizing := g2 } cb err := by
  cases ev with
  | RecognitionEndedEvent sid status error =>
    by_cases hst : status = RecognitionCompletionStatus.Success
    · simp [implDispatchMessageHandler, hst]
    · simp only [implDispatchMessageHandler, if_neg hst]
      rw [invokeDiscard_ext c c2 _ hc]
  | SpeechSimplePhraseEvent sid res =>
    by_cases hcan : EnumTranslation.implTranslateRecognitionResult res.RecognitionStatus
        = ResultReason.Canceled
    · simp only [implDispatchMessageHandler, if_pos hcan]
      rw [invokeDiscard_ext c c2 _ hc]
    · simp only [implDispatchMessageHandler, if_neg hcan]
      rw [invokeDiscard_ext r r2 _ hr]
  | SpeechDetailedPhraseEvent sid res =>
    cases hres : detailedPhraseResult res with
    | error e => simp [implDispatchMessageHandler, hres]
    | ok result =>
      by_cases hcan : EnumTranslation.implTranslateRecognitionResult res.RecognitionStatus
          = ResultReason.Canceled
      · simp only [implDispatchMessageHandler, hres, if_pos hcan]
        rw [invokeDiscard_ext c c2 _ hc]
      · simp only [implDispatchMessageHandler, hres, if_neg hcan]
        rw [invokeDiscard_ext r r2 _ hr]
  | SpeechHypothesisEvent sid res =>
    simp only [implDispatchMessageHandler]
    rw [invokeDiscard_ext g g2 _ hg]

/-- Helper: the sink is likewise insensitive to whether subscribers throw. -/
lemma sinkHandler_handlers_ext (st : SpeechRecognizerState)
    (c c2 r r2 g g2 cb err : Option Bool) (ev : SpeechRecognitionEvent)
    (hc : c.isSome = c2.isSome) (hr : r.isSome = r2.isSome)
    (hg : g.isSome = g2.isSome) :
    sinkHandler st { canceled := c, recognized := r, recognizing := g } cb err ev =
      sinkHandler st { canceled := c2, recognized := r2, recognizing := g2 } cb err ev := by
  unfold sinkHandler
  split
  · rfl
  · exact implDispatch_handlers_ext ev c c2 r r2 g g2 cb err hc hr hg

/-- Helper: serialized processing of a whole event sequence is insensitive to
whether subscribers throw. -/
lemma processEvents_handlers_ext (st : SpeechRecognizerState)
    (c c2 r r2 g g2 cb err : Option Bool) (evs : List SpeechRecognitionEvent)
    (hc : c.isSome = c2.isSome) (hr : r.isSome = r2.isSome)
    (hg : g.isSome = g2.isSome) :
    processEvents st { canceled := c, recognized := r, recognizing := g } cb err evs =
      processEvents st { canceled := c2, recognized := r2, recognizing := g2 } cb err evs := by
  induction evs with
  | nil => rfl
  | cons e rest ih =>
    simp only [processEvents]
    rw [sinkHandler_handlers_ext st c c2 r r2 g g2 cb err e hc hr hg, ih]

/-- C6: an exception raised inside a `recognizing`, `recognized` or `canceled`
handler is caught and discarded at the dispatch site: the invocation trace and
the propagation flag of the current event, and of every subsequent event in a
run, are exactly those of the same configuration with non-throwing handlers —
so a throwing subscriber neither suppresses the remaining dispatch actions of
its event nor prevents later events from being processed. -/
theorem subscriber_exception_isolated (ev : SpeechRecognitionEvent)
    (st : SpeechRecognizerState) (evs : List SpeechRecognitionEvent)
    (c c2 r r2 g g2 cb err : Option Bool)
    (hc : c.isSome = c2.isSome) (hr : r.isSome = r2.isSome)
    (hg : g.isSome = g2.isSome) :
    implDispatchMessageHandler ev { canceled := c, recognized := r, recognizing := g } cb err =
      implDispatchMessageHandler ev { canceled := c2, recognized := r2, recognizing := g2 } cb err ∧
    processEvents st { canceled := c, recognized := r, recognizing := g } cb err evs =
      processEvents st { canceled := c2, recognized := r2, recognizing := g2 } cb err evs :=
  ⟨implDispatch_handlers_ext ev c c2 r r2 g g2 cb err hc hr hg,
   processEvents_handlers_ext st c c2 r r2 g g2 cb err evs hc hr hg⟩

/-- C6 witness: always-throwing subscribers produce the same invocation trace
as never-throwing ones on a concrete two-event run. -/
theorem subscriber_exception_isolated_witness :
    implDispatchMessageHandler hypEvent
        { canceled := some true, recognized := some true, recognizing := some true }
        (some false) none =
      implDispatchMessageHandler hypEvent
        { canceled := some false, recognized := some false, recognizing := some false }
        (some false) none ∧
    processEvents sampleActive
        { canceled := some true, recognized := some true, recognizing := some true }
        (some false) none [hypEvent, endedErr] =
      processEvents sampleActive
        { canceled := some false, recognized := some false, recognizing := some false }
        (some false) none [hypEvent, endedErr] :=
  subscriber_exception_isolated hypEvent sampleActive [hypEvent, endedErr]
    (some true) (some false) (some true) (some false) (some true) (some false)
    (some false) none rfl rfl rfl

/-- C5 counterexample: after `close()` the authorization-token getter does not
fail with the disposed classification — it succeeds (the source performs no
disposed check in that accessor), so not every property accessor fails on a
disposed instance. -/
theorem authorizationToken_get_ignores_disposed :
    SpeechRecognizer.close sampleRecognizer = Except.ok sampleClosed ∧
    sampleClosed.disposedSpeechRecognizer = true ∧
    SpeechRecognizer.authorizationToken sampleClosed = Except.ok none ∧
    SpeechRecognizer.setAuthorizationToken sampleClosed (some "tok") =
      Except.ok
        { disposedSpeechRecognizer := true
          reco := none
          nextHandle := 0
          privProperties := { entries := [(authTokenKey, "tok"), (recoLanguageKey, "en-US")] } } :=
  ⟨rfl, rfl, rfl, rfl⟩

/-- C5 (amended): the endpoint-id getter and setter, the language getter and
the output-format getter fail with the disposed classification on a disposed
instance, and the endpoint-id and authorization-token setters fail on null or
blank input; the authorization-token getter and setter, however, perform no
disposed check (the getter succeeds on a disposed instance, and the setter's
only check is the null/blank one). -/
theorem accessor_disposed_and_blank_checks (st : SpeechRecognizerState)
    (v : Option String) :
    (st.disposedSpeechRecognizer = true →
      SpeechRecognizer.endpointId st = Except.error SpeechError.objectDisposed ∧
      SpeechRecognizer.setEndpointId st v = Except.error SpeechError.objectDisposed ∧
      SpeechRecognizer.speechRecognitionLanguage st =
        Except.error SpeechError.objectDisposed ∧
      SpeechRecognizer.outputFormat st = Except.error SpeechError.objectDisposed ∧
      SpeechRecognizer.authorizationToken st =
        Except.ok (st.privProperties.getProperty authTokenKey none)) ∧
    (isNullOrWhitespace v = true →
      SpeechRecognizer.setAuthorizationToken st v =
        Except.error SpeechError.argumentNull ∧
      (st.disposedSpeechRecognizer = false →
        SpeechRecognizer.setEndpointId st v =
          Except.error SpeechError.argumentNull)) := by
  constructor
  · intro hd
    refine ⟨?_, ?_, ?_, ?_, rfl⟩ <;>
      simp [SpeechRecognizer.endpointId, SpeechRecognizer.setEndpointId,
        SpeechRecognizer.speechRecognitionLanguage, SpeechRecognizer.outputFormat,
        Contracts.throwIfDisposed, hd]
  · intro hv
    constructor
    · simp [SpeechRecognizer.setAuthorizationToken,
        Contracts.throwIfNullOrWhitespace, hv]
    · intro hd
      simp [SpeechRecognizer.setEndpointId, Contracts.throwIfDisposed,
        Contracts.throwIfNullOrWhitespace, hd, hv]

/-- C5 witness: on the concrete closed recognizer the disposed-checked
accessors fail with the disposed classification, and the blank token is
rejected by the authorization-token setter. -/
theorem accessor_disposed_and_blank_checks_witness :
    SpeechRecognizer.endpointId sampleClosed =
      Except.error SpeechError.objectDisposed ∧
    SpeechRecognizer.setEndpointId sampleClosed (some " ") =
      Except.error SpeechError.objectDisposed ∧
    SpeechRecognizer.speechRecognitionLanguage sampleClosed =
      Except.error SpeechError.objectDisposed ∧
    SpeechRecognizer.outputFormat sampleClosed =
      Except.error SpeechError.objectDisposed ∧
    SpeechRecognizer.setAuthorizationToken sampleClosed (some " ") =
      Except.error SpeechError.argumentNull :=
  have h := accessor_disposed_and_blank_checks sampleClosed (some " ")
  ⟨(h.1 rfl).1, (h.1 rfl).2.1, (h.1 rfl).2.2.1, (h.1 rfl).2.2.2.1, (h.2 rfl).1⟩

/-- C7: for every `SpeechDetailedPhraseEvent` whose result construction
succeeds, the constructed result takes `offset` and `duration` from the
detailed payload's own `Offset` and `Duration` fields, and `text` is assigned
from the first (highest-ranked) `NBest` alternative's `Display` field exactly
when the translated outcome is `RecognizedSpeech` (for any other outcome the
text field is left unset). -/
theorem detailedPhrase_result_fields (p : IDetailedSpeechPhrase)
    (r : SpeechRecognitionResult) (h : detailedPhraseResult p = Except.ok r) :
    r.offset = some p.Offset ∧ r.duration = some p.Duration ∧
    r.json = some (stringifyDetailedPhrase p) ∧
    (EnumTranslation.implTranslateRecognitionResult p.RecognitionStatus =
        ResultReason.RecognizedSpeech →
      r.text = p.NBest.head?.map IPhrase.Display) ∧
    (EnumTranslation.implTranslateRecognitionResult p.RecognitionStatus ≠
        ResultReason.RecognizedSpeech →
      r.text = none) := by
  simp only [detailedPhraseResult] at h
  split at h
  · rename_i hrec
    cases hnb : p.NBest with
    | nil => rw [hnb] at h; cases h
    | cons first rest =>
      rw [hnb] at h
      injection h with h2
      subst h2
      exact ⟨rfl, rfl, rfl, fun _ => rfl, fun hne => absurd hrec hne⟩
  · rename_i hrec
    injection h with h2
    subst h2
    exact ⟨rfl, rfl, rfl, fun heq => absurd heq hrec, fun _ => rfl⟩

/-- C7 witness: the concrete successful detailed phrase yields a result whose
offset, duration and text come from the payload as claimed. -/
theorem detailedPhrase_result_fields_witness :
    sampleDetailedResult.offset = some 3 ∧
    sampleDetailedResult.duration = some 4 ∧
    sampleDetailedResult.text = some "hi" :=
  have h := detailedPhrase_result_fields sampleDetailed sampleDetailedResult rfl
  ⟨h.1, h.2.1, by rw [h.2.2.2.1 rfl]; rfl⟩
